import Mathlib

/-!
Verification of the realtime collection synchronizer in
`src/_src/app/ng-rethinkdb/src/RethinkDBObservable.ts`
(class `AngularRethinkDBObservable<T>`).

The embedding models:
* `ChangeData` — the decoded change-feed message `{new_val?, old_val?, err?}`;
* `classify` — the branch structure of `socketDataHandler` (lines 40-73) on a
  given current snapshot, yielding what the handler does (`next`, `error`, or
  nothing);
* `SubjectState` / `socketDataHandler` — the handler lifted to the state of the
  underlying `BehaviorSubject` (current value, error flag, recorded error,
  closed flag), with the rxjs semantics that `this.value` throws once the
  subject has errored or been unsubscribed, so the handler has no effect then;
* `push` / `remove` / `update` — the mutation commands (lines 106-221),
  modelled as a decision between throwing immediately and issuing one HTTP
  request with an explicit body.

JavaScript truthiness is modelled explicitly: `!!s` on an optional string is
false for a missing field and for the empty string; `!!n` on an optional
number is false for a missing field and for `0`; objects (`old_val`,
`new_val`) are truthy exactly when the field is present.
-/

namespace AngularRethinkDB

/-- Entity of the synchronized table: `T extends IRethinkObject`. The only
structural requirement the handler uses is the `id` field; the rest of the
record is an opaque payload. -/
structure Entity where
  id : String
  payload : Nat
deriving DecidableEq, Repr, Inhabited

/-- Decoded change-feed message: `{new_val: T, old_val: T, err?: string}`
(line 41), with both values optional on the wire. -/
structure ChangeData where
  old_val : Option Entity
  new_val : Option Entity
  err : Option String
deriving DecidableEq, Repr, Inhabited

/-- JavaScript truthiness of an optional string: `!!s` is false for a missing
field and for the empty string. -/
def jsTruthyStr : Option String → Bool
  | none => false
  | some s => s ≠ ""

/-- JavaScript truthiness of an optional number: `!!n` is false for a missing
field and for `0`. -/
def jsTruthyNat : Option Nat → Bool
  | none => false
  | some n => n ≠ 0

/-- What one call of `socketDataHandler` does with the subject: publish a new
snapshot (`this.next`), raise an error (`this.error`), or nothing. -/
inductive HandlerEffect where
  | published (newDb : List Entity)
  | errored (e : String)
  | noop
deriving DecidableEq, Repr

/-- Branch structure of `socketDataHandler` (lines 47-72) on the current
snapshot `db`:
* `!data.old_val && !data.new_val && db.length > 0` → `next([])`;
* else `!!data.err` → `error(data.err)`;
* else `!data.old_val && !!data.new_val` → `next([new_val, ...db])`;
* else `!!old && !!new && db.filter(o => o.id === new.id).length > 0` →
  `next([...db.filter(o => o.id !== old.id), new_val])`;
* else `!!old && !new` → `next([...db.filter(o => o.id !== old.id)])`;
* else nothing. -/
def classify (db : List Entity) (data : ChangeData) : HandlerEffect :=
  if data.old_val = none ∧ data.new_val = none ∧ 0 < db.length then
    .published []
  else if jsTruthyStr data.err then
    .errored (data.err.getD "")
  else
    match data.old_val, data.new_val with
    | none, some nv => .published (nv :: db)
    | some ov, some nv =>
        if 0 < (db.filter fun o => o.id == nv.id).length then
          .published ((db.filter fun o => o.id != ov.id) ++ [nv])
        else
          .noop
    | some ov, none => .published (db.filter fun o => o.id != ov.id)
    | none, none => .noop

/-- Snapshot after one handler call: the published value when the handler
calls `next`, the unchanged snapshot otherwise. -/
def applySnapshot (db : List Entity) (data : ChangeData) : List Entity :=
  match classify db data with
  | .published newDb => newDb
  | _ => db

/-- State of the underlying `BehaviorSubject<T[]>`: current value, whether an
error has been recorded (`hasError` / `thrownError`), and whether the subject
has been unsubscribed (`closed`). The class never calls `complete`, so the
subject is stopped exactly when `hasError` is set. -/
structure SubjectState where
  value : List Entity
  hasError : Bool
  thrownError : Option String
  closed : Bool
deriving DecidableEq, Repr

/-- Initial subject state: `super([])` (line 32). -/
def initialState : SubjectState :=
  { value := [], hasError := false, thrownError := none, closed := false }

/-- One call of `socketDataHandler` on the subject state. Reading
`this.value` (line 44) goes through `BehaviorSubject.getValue`, which throws
when the subject has errored or been unsubscribed, so the handler then has no
effect on the state; otherwise the branch taken is `classify`, with `next`
replacing the current value and `error` recording the error string. -/
def socketDataHandler (s : SubjectState) (data : ChangeData) : SubjectState :=
  if s.hasError || s.closed then s
  else
    match classify s.value data with
    | .published newDb => { s with value := newDb }
    | .errored e => { s with hasError := true, thrownError := some e }
    | .noop => s

/-- What a subscriber is delivered at subscription time. -/
inductive SubOutcome where
  | nextValue (db : List Entity)
  | errValue (e : Option String)
  | closedErr
deriving DecidableEq, Repr

/-- Delivery to a new subscriber, per `BehaviorSubject` semantics (the
"replay-latest-then-live" broadcast of the source's base class): an errored
subject delivers its recorded error, an unsubscribed one an
object-unsubscribed error, a live one the current snapshot. -/
def subscribeNotification (s : SubjectState) : SubOutcome :=
  if s.hasError then .errValue s.thrownError
  else if s.closed then .closedErr
  else .nextValue s.value

/-- Tagged change events, the valid shapes of `ChangeData` without an error
field (spec §3): insert, identifier-matched update, removal, clear. -/
inductive ChangeEvent where
  | inserted (v : Entity)
  | updated (o n : Entity)
  | removed (o : Entity)
  | cleared
deriving DecidableEq, Repr

/-- Wire encoding of a tagged change event as the field combination
`socketDataHandler` receives. -/
def toData : ChangeEvent → ChangeData
  | .inserted v => { old_val := none, new_val := some v, err := none }
  | .updated o n => { old_val := some o, new_val := some n, err := none }
  | .removed o => { old_val := some o, new_val := none, err := none }
  | .cleared => { old_val := none, new_val := none, err := none }

/-- Validity of one change event against the snapshot it is applied to, as a
backend that owns a table with unique primary keys would emit it: an insert
carries a fresh identifier, an update matches an existing row by identifier
and keeps that identifier, removals and clears are unconstrained. -/
def validEvent (db : List Entity) : ChangeEvent → Bool
  | .inserted v => db.all fun e => e.id != v.id
  | .updated o n => o.id == n.id && db.any fun e => e.id == o.id
  | .removed _ => true
  | .cleared => true

/-- Validity of a sequence of change events, each against the snapshot
produced by folding the ones before it. -/
def validSeq : List Entity → List ChangeEvent → Bool
  | _, [] => true
  | db, e :: es => validEvent db e && validSeq (applySnapshot db (toData e)) es

/-- Snapshot after folding a sequence of change events through the handler in
arrival order. -/
def applyEvents (db : List Entity) (es : List ChangeEvent) : List Entity :=
  es.foldl (fun d e => applySnapshot d (toData e)) db

/-- Modelled from the spec: one step of the "net effect of inserts/updates
minus removals" on the collection of identifiers (spec §8) — an insert adds
its identifier, an update replaces the old identifier with the new one, a
removal drops its identifier, a clear empties the collection. -/
def netStep : List String → ChangeEvent → List String
  | ids, .inserted v => v.id :: ids
  | ids, .updated o n => n.id :: ids.filter fun i => i != o.id
  | ids, .removed o => ids.filter fun i => i != o.id
  | _, .cleared => []

/-- Modelled from the spec: identifiers present via the net effect of a
sequence of change events, starting from nothing. -/
def netEffect (es : List ChangeEvent) : List String :=
  es.foldl netStep []

/-- Configuration `IRethinkDBAPIConfig`: host and port optional, database name
and API key. (The interface declaration itself lives outside the embedded
source file; the fields are taken from how `RethinkDBObservable.ts` reads the
config at lines 33, 119-121, 154-156, 205-207.) -/
structure IRethinkDBAPIConfig where
  host : Option String
  port : Option Nat
  database : String
  api_key : String
deriving DecidableEq, Repr

/-- Base address (line 33):
`(!!config.host ? config.host : '') + (!!config.port ? ':' + config.port : '')`. -/
def API_URL (cfg : IRethinkDBAPIConfig) : String :=
  (if jsTruthyStr cfg.host then cfg.host.getD "" else "")
    ++ (if jsTruthyNat cfg.port then ":" ++ toString (cfg.port.getD 0) else "")

/-- Modelled from the spec: `IRethinkDBQuery`, an opaque backend-defined
filter passed through unchanged by `update`; its declaration is not part of
the embedded source file. -/
structure IRethinkDBQuery where
  raw : String
deriving DecidableEq, Repr

/-- Collection instance: its immutable configuration and table name, plus the
state of the underlying subject (which carries `hasError`, `thrownError` and
`closed`). -/
structure Collection where
  rethinkdbConfig : IRethinkDBAPIConfig
  table : String
  state : SubjectState
deriving DecidableEq, Repr

/-- Error thrown synchronously by a mutation command (`Observable.throw`):
either the re-raised recorded stream error (`this.thrownError`) or a fresh
`Error` with a message. -/
inductive RxError where
  | recorded (e : Option String)
  | errorMsg (msg : String)
deriving DecidableEq, Repr

/-- Message of the error thrown by a mutation command on a closed collection
(lines 111, 147, 197). -/
def closedMsg : String := "AngularRethinkDB has been closed."

/-- Outcome of a mutation command: an immediately-failing observable
(`Observable.throw`, no network call) or a single POST request to `url` with
body `body`. -/
inductive CmdOutcome (β : Type) where
  | thrown (e : RxError)
  | request (url : String) (body : β)
deriving DecidableEq, Repr

/-- Body of the `push` request (lines 118-123):
`{db, table, api_key, object}`. -/
structure PushBody where
  db : String
  table : String
  api_key : String
  object : Entity
deriving DecidableEq, Repr

/-- The `query` field of the `remove` request body: `{index, value}`. -/
structure IndexQuery where
  index : String
  value : String
deriving DecidableEq, Repr

/-- Body of the `remove` request (lines 151-167):
`{db, table, api_key, query: {index, value}}`. -/
structure RemoveBody where
  db : String
  table : String
  api_key : String
  query : IndexQuery
deriving DecidableEq, Repr

/-- Body of the `update` request (lines 204-210):
`{db, table, api_key, object, query}`. -/
structure UpdateBody where
  db : String
  table : String
  api_key : String
  object : Entity
  query : Option IRethinkDBQuery
deriving DecidableEq, Repr

/-- Argument of `remove`: `string | {indexName, indexValue}` (line 142). -/
inductive RemoveArg where
  | str (s : String)
  | idx (indexName indexValue : String)
deriving DecidableEq, Repr

/-- The `push` command (lines 106-134): throw the recorded error if
`this.hasError`, else a closed error if `this.closed`, else POST
`{db, table, api_key, object}` to `API_URL + '/api/put'`. -/
def push (c : Collection) (newObject : Entity) : CmdOutcome PushBody :=
  if c.state.hasError then .thrown (.recorded c.state.thrownError)
  else if c.state.closed then .thrown (.errorMsg closedMsg)
  else
    .request (API_URL c.rethinkdbConfig ++ "/api/put")
      { db := c.rethinkdbConfig.database
        table := c.table
        api_key := c.rethinkdbConfig.api_key
        object := newObject }

/-- The `remove` command (lines 142-183): after the same two fail-fast
checks, POST to `API_URL + '/api/delete'` with
`query: {index: 'id', value: index}` for a bare string argument and
`query: {index: indexName, value: indexValue}` for an explicit pair. -/
def remove (c : Collection) (index : RemoveArg) : CmdOutcome RemoveBody :=
  if c.state.hasError then .thrown (.recorded c.state.thrownError)
  else if c.state.closed then .thrown (.errorMsg closedMsg)
  else
    match index with
    | .str s =>
        .request (API_URL c.rethinkdbConfig ++ "/api/delete")
          { db := c.rethinkdbConfig.database
            table := c.table
            api_key := c.rethinkdbConfig.api_key
            query := { index := "id", value := s } }
    | .idx indexName indexValue =>
        .request (API_URL c.rethinkdbConfig ++ "/api/delete")
          { db := c.rethinkdbConfig.database
            table := c.table
            api_key := c.rethinkdbConfig.api_key
            query := { index := indexName, value := indexValue } }

/-- The `update` command (lines 192-221): after the same two fail-fast
checks, POST `{db, table, api_key, object, query}` to
`API_URL + '/api/update'`. -/
def update (c : Collection) (updatedObj : Entity) (query : Option IRethinkDBQuery) :
    CmdOutcome UpdateBody :=
  if c.state.hasError then .thrown (.recorded c.state.thrownError)
  else if c.state.closed then .thrown (.errorMsg closedMsg)
  else
    .request (API_URL c.rethinkdbConfig ++ "/api/update")
      { db := c.rethinkdbConfig.database
        table := c.table
        api_key := c.rethinkdbConfig.api_key
        object := updatedObj
        query := query }

/-- Sample configuration used to evaluate the commands on concrete inputs. -/
def sampleConfig : IRethinkDBAPIConfig :=
  { host := some "http://h", port := some 3000, database := "mydb", api_key := "key" }

/-- Freshly constructed collection on table `users`. -/
def sampleCollection : Collection :=
  { rethinkdbConfig := sampleConfig, table := "users", state := initialState }

/-- Collection whose subject has been unsubscribed (`closed`). -/
def closedCollection : Collection :=
  { rethinkdbConfig := sampleConfig, table := "users"
    state := { value := [], hasError := false, thrownError := none, closed := true } }

/-- Collection in the terminal error state with recorded error `"boom"`. -/
def erroredCollection : Collection :=
  { rethinkdbConfig := sampleConfig, table := "users"
    state := { value := [], hasError := true, thrownError := some "boom", closed := false } }

/-! Helper lemmas on the reconciliation branches. -/

lemma classify_err (db : List Entity) (data : ChangeData)
    (herr : jsTruthyStr data.err = true)
    (hcl : ¬(data.old_val = none ∧ data.new_val = none ∧ 0 < db.length)) :
    classify db data = .errored (data.err.getD "") := by
  simp [classify, herr, hcl]

lemma classify_inserted (db : List Entity) (v : Entity) :
    classify db (toData (.inserted v)) = .published (v :: db) := by
  simp [classify, toData, jsTruthyStr]

lemma applySnapshot_inserted (db : List Entity) (v : Entity) :
    applySnapshot db (toData (.inserted v)) = v :: db := by
  simp [applySnapshot, classify_inserted]

lemma classify_removed (db : List Entity) (o : Entity) :
    classify db (toData (.removed o)) =
      .published (db.filter fun e => e.id != o.id) := by
  simp [classify, toData, jsTruthyStr]

lemma applySnapshot_removed (db : List Entity) (o : Entity) :
    applySnapshot db (toData (.removed o)) = db.filter fun e => e.id != o.id := by
  simp [applySnapshot, classify_removed]

lemma classify_updated_of_mem (db : List Entity) (o n : Entity)
    (h : ∃ e ∈ db, e.id = n.id) :
    classify db (toData (.updated o n)) =
      .published ((db.filter fun e => e.id != o.id) ++ [n]) := by
  obtain ⟨e, he, hid⟩ := h
  have hmem : e ∈ db.filter fun x => x.id == n.id := by
    simp [List.mem_filter, he, hid]
  have hlen : 0 < (db.filter fun x => x.id == n.id).length :=
    List.length_pos.mpr (List.ne_nil_of_mem hmem)
  simp [classify, toData, jsTruthyStr, hlen]

lemma classify_updated_of_not_mem (db : List Entity) (o n : Entity)
    (h : ∀ e ∈ db, e.id ≠ n.id) :
    classify db (toData (.updated o n)) = .noop := by
  have hnil : (db.filter fun x => x.id == n.id) = [] := by
    simp only [List.filter_eq_nil_iff]
    intro e he
    simpa using h e he
  simp [classify, toData, jsTruthyStr, hnil]

lemma applySnapshot_cleared (db : List Entity) :
    applySnapshot db (toData .cleared) = [] := by
  cases db <;> simp [applySnapshot, classify, toData, jsTruthyStr]

lemma map_id_filter_ne (db : List Entity) (a : String) :
    (db.filter fun e => e.id != a).map Entity.id =
      (db.map Entity.id).filter fun i => i != a := by
  induction db with
  | nil => simp
  | cons x xs ih =>
    by_cases h : x.id != a <;> simp [List.filter_cons, h, ih]

lemma applySnapshot_updated_of_mem (db : List Entity) (o n : Entity)
    (h : ∃ e ∈ db, e.id = n.id) :
    applySnapshot db (toData (.updated o n)) =
      (db.filter fun e => e.id != o.id) ++ [n] := by
  simp [applySnapshot, classify_updated_of_mem db o n h]

lemma applyEvents_cons (db : List Entity) (e : ChangeEvent) (es : List ChangeEvent) :
    applyEvents db (e :: es) = applyEvents (applySnapshot db (toData e)) es :=
  rfl

/-- Invariant of the fold: starting from a snapshot with pairwise-distinct
identifiers whose identifier set matches the accumulator, a valid event
sequence keeps the identifiers pairwise distinct and in step with the
spec-side net effect. -/
lemma ids_invariant (es : List ChangeEvent) :
    ∀ (db : List Entity) (acc : List String),
      (db.map Entity.id).Nodup →
      (∀ i, i ∈ db.map Entity.id ↔ i ∈ acc) →
      validSeq db es = true →
      ((applyEvents db es).map Entity.id).Nodup ∧
      (∀ i, i ∈ (applyEvents db es).map Entity.id ↔ i ∈ es.foldl netStep acc) := by
  induction es with
  | nil =>
    intro db acc h1 h2 _
    exact ⟨h1, h2⟩
  | cons e es ih =>
    intro db acc h1 h2 hv
    simp only [validSeq, Bool.and_eq_true] at hv
    obtain ⟨hve, hvs⟩ := hv
    rw [applyEvents_cons, List.foldl_cons]
    cases e with
    | inserted v =>
      have hfresh : ∀ x ∈ db, x.id ≠ v.id := by
        intro x hx
        simpa using List.all_eq_true.mp hve x hx
      rw [applySnapshot_inserted] at hvs ⊢
      refine ih (v :: db) (v.id :: acc) ?_ ?_ hvs
      · refine List.nodup_cons.mpr ⟨?_, h1⟩
        intro hmem
        obtain ⟨x, hx, hxid⟩ := List.mem_map.mp hmem
        exact hfresh x hx hxid
      · intro i
        simp only [List.map_cons, List.mem_cons]
        rw [h2 i]
    | updated o n =>
      simp only [validEvent, Bool.and_eq_true, beq_iff_eq, List.any_eq_true] at hve
      obtain ⟨hid, x, hx, hxid⟩ := hve
      have hmem : ∃ y ∈ db, y.id = n.id := ⟨x, hx, by rw [hxid, hid]⟩
      rw [applySnapshot_updated_of_mem db o n hmem] at hvs ⊢
      refine ih _ (n.id :: acc.filter fun i => i != o.id) ?_ ?_ hvs
      · rw [List.map_append, map_id_filter_ne]
        refine List.nodup_append.mpr ⟨h1.filter _, List.nodup_singleton _, ?_⟩
        intro a ha hb
        have ha2 : (a != o.id) = true := (List.mem_filter.mp ha).2
        have hb2 : a = n.id := by simpa using hb
        rw [hb2, ← hid] at ha2
        simp at ha2
      · intro i
        rw [List.map_append, map_id_filter_ne]
        simp only [List.mem_append, List.mem_filter, List.map_cons, List.map_nil,
          List.mem_cons, List.mem_singleton, bne_iff_ne, ne_eq,
          List.not_mem_nil, or_false]
        rw [h2 i]
        tauto
    | removed o =>
      rw [applySnapshot_removed] at hvs ⊢
      refine ih _ (acc.filter fun i => i != o.id) ?_ ?_ hvs
      · rw [map_id_filter_ne]
        exact h1.filter _
      · intro i
        rw [map_id_filter_ne]
        simp only [List.mem_filter, bne_iff_ne, ne_eq]
        rw [h2 i]
    | cleared =>
      rw [applySnapshot_cleared] at hvs ⊢
      refine ih [] [] List.nodup_nil ?_ hvs
      simp

/-! Claim theorems. -/

/-- C7: applying an `Inserted(v)` change event (old value absent, new value
present, no error) to any snapshot publishes `[v] ++ snapshot`: the new
entity is prepended, so the most recent insert comes first, and all existing
entities are kept in their previous order. -/
theorem c7_inserted_prepends (db : List Entity) (v : Entity) :
    classify db (toData (.inserted v)) = .published (v :: db) :=
  classify_inserted db v

/-- C8: applying a `Cleared` change event (old value and new value both
absent, no error) yields the empty snapshot on every snapshot — a non-empty
snapshot is cleared to `[]` and an empty snapshot stays `[]` (idempotent;
on an empty snapshot the handler publishes nothing and the snapshot remains
empty). -/
theorem c8_cleared_yields_empty (db : List Entity) :
    applySnapshot db (toData .cleared) = [] :=
  applySnapshot_cleared db

/-- C9: an `Updated(old, new)` change event (old value and new value both
present) applied to a snapshot containing no entity with identifier `new.id`
is treated as a no-op: the handler publishes nothing and the snapshot is
unchanged. -/
theorem c9_updated_unmatched_noop (db : List Entity) (o n : Entity)
    (h : (db.all fun e => e.id != n.id) = true) :
    classify db (toData (.updated o n)) = .noop ∧
      applySnapshot db (toData (.updated o n)) = db := by
  have h' : ∀ e ∈ db, e.id ≠ n.id := by
    intro e he
    simpa using List.all_eq_true.mp h e he
  have hc := classify_updated_of_not_mem db o n h'
  exact ⟨hc, by simp [applySnapshot, hc]⟩

/-- C9 witness: the update `b2 → b3` on the snapshot `[a1]` is a no-op. -/
theorem c9_witness :
    (([Entity.mk "a" 1].all fun e => e.id != (Entity.mk "b" 3).id) = true) ∧
      (classify [Entity.mk "a" 1] (toData (.updated (Entity.mk "b" 2) (Entity.mk "b" 3))) = .noop ∧
        applySnapshot [Entity.mk "a" 1]
          (toData (.updated (Entity.mk "b" 2) (Entity.mk "b" 3))) = [Entity.mk "a" 1]) :=
  ⟨by decide, c9_updated_unmatched_noop [Entity.mk "a" 1] (Entity.mk "b" 2) (Entity.mk "b" 3) (by decide)⟩

/-- C1 counterexample: on the snapshot `[a1, b2]`, the event
`Updated(a1, a3)` publishes `[b2, a3]` — the updated entity is appended at
the back — which differs from the snapshot `[a3, b2]` the claim's formula
`[new] ++ filtered` yields. -/
theorem c1_counterexample :
    classify [Entity.mk "a" 1, Entity.mk "b" 2]
        (toData (.updated (Entity.mk "a" 1) (Entity.mk "a" 3))) =
      .published [Entity.mk "b" 2, Entity.mk "a" 3] ∧
    HandlerEffect.published [Entity.mk "b" 2, Entity.mk "a" 3] ≠
      .published [Entity.mk "a" 3, Entity.mk "b" 2] := by
  decide

/-- C1 amended: for every snapshot that contains an entity with identifier
equal to `new.id`, applying an `Updated(old, new)` change event publishes the
new snapshot `(snapshot with every entity whose id equals old.id removed) ++
[new]`: the updated entity is placed at the BACK, the existence check is
keyed on `new.id`, and the removal filter is keyed on `old.id`. -/
theorem c1_updated_appends (db : List Entity) (o n : Entity)
    (h : (db.any fun e => e.id == n.id) = true) :
    classify db (toData (.updated o n)) =
      .published ((db.filter fun e => e.id != o.id) ++ [n]) := by
  obtain ⟨e, he, hid⟩ := List.any_eq_true.mp h
  exact classify_updated_of_mem db o n ⟨e, he, by simpa using hid⟩

/-- C1 witness: on the snapshot `[a1, b2]`, the update `a1 → a3` publishes
`[b2, a3]`. -/
theorem c1_witness :
    (([Entity.mk "a" 1, Entity.mk "b" 2].any fun e => e.id == (Entity.mk "a" 3).id) = true) ∧
      classify [Entity.mk "a" 1, Entity.mk "b" 2]
          (toData (.updated (Entity.mk "a" 1) (Entity.mk "a" 3))) =
        .published (([Entity.mk "a" 1, Entity.mk "b" 2].filter
            fun e => e.id != (Entity.mk "a" 1).id) ++ [Entity.mk "a" 3]) :=
  ⟨by decide,
    c1_updated_appends [Entity.mk "a" 1, Entity.mk "b" 2]
      (Entity.mk "a" 1) (Entity.mk "a" 3) (by decide)⟩

/-- C5 counterexample: on the snapshot `[a1]`, inserting `a2` and then
removing `a2` yields `[]`, not the original snapshot — the removal filter
drops every entity with identifier `a`, including the pre-existing `a1`. -/
theorem c5_counterexample :
    applySnapshot
        (applySnapshot [Entity.mk "a" 1] (toData (.inserted (Entity.mk "a" 2))))
        (toData (.removed (Entity.mk "a" 2))) = [] ∧
    ([] : List Entity) ≠ [Entity.mk "a" 1] := by
  decide

/-- C5 amended: for every snapshot containing no entity whose identifier
equals `v.id`, applying `Inserted(v)` and then immediately `Removed(v)`
yields the original snapshot (the round-trip holds exactly when `v.id` is
fresh in the snapshot). -/
theorem c5_insert_remove_roundtrip (db : List Entity) (v : Entity)
    (h : (db.all fun e => e.id != v.id) = true) :
    applySnapshot (applySnapshot db (toData (.inserted v)))
      (toData (.removed v)) = db := by
  rw [applySnapshot_inserted, applySnapshot_removed]
  have hv : ((v.id != v.id) = true) = False := by simp
  simp only [List.filter_cons, hv, if_false]
  exact List.filter_eq_self.mpr (List.all_eq_true.mp h)

/-- C5 witness: inserting `a2` into `[b1]` and removing it again restores
`[b1]`. -/
theorem c5_witness :
    (([Entity.mk "b" 1].all fun e => e.id != (Entity.mk "a" 2).id) = true) ∧
      applySnapshot (applySnapshot [Entity.mk "b" 1] (toData (.inserted (Entity.mk "a" 2))))
        (toData (.removed (Entity.mk "a" 2))) = [Entity.mk "b" 1] :=
  ⟨by decide, c5_insert_remove_roundtrip [Entity.mk "b" 1] (Entity.mk "a" 2) (by decide)⟩

/-- C3 counterexample: on the non-empty snapshot `[a1]`, the event
`{err: "boom"}` with both values absent is captured by the Cleared branch:
no error is raised (`hasError` stays `false`) and the snapshot changes to
`[]` — contradicting the claim that every event carrying `err` raises a
terminal error and leaves the snapshot unchanged. -/
theorem c3_counterexample :
    socketDataHandler
        { value := [Entity.mk "a" 1], hasError := false, thrownError := none, closed := false }
        { old_val := none, new_val := none, err := some "boom" } =
      { value := [], hasError := false, thrownError := none, closed := false } ∧
    ([] : List Entity) ≠ [Entity.mk "a" 1] := by
  decide

/-- C3 amended: processing a change event whose `err` field is present and
non-empty raises that error as a terminal stream error PROVIDED the Cleared
condition does not fire (it is not the case that both values are absent and
the snapshot is non-empty): the error is recorded, the snapshot is not
changed by that event, no subsequent event changes the state, and every
future subscriber receives the recorded error. -/
theorem c3_err_terminal (s : SubjectState) (data : ChangeData)
    (hne : s.hasError = false) (hnc : s.closed = false)
    (herr : jsTruthyStr data.err = true)
    (hcl : ¬(data.old_val = none ∧ data.new_val = none ∧ 0 < s.value.length)) :
    socketDataHandler s data =
      { s with hasError := true, thrownError := some (data.err.getD "") } ∧
    (socketDataHandler s data).thrownError = data.err ∧
    (socketDataHandler s data).value = s.value ∧
    (∀ d, socketDataHandler (socketDataHandler s data) d = socketDataHandler s data) ∧
    subscribeNotification (socketDataHandler s data) =
      .errValue (some (data.err.getD "")) := by
  have hc := classify_err s.value data herr hcl
  have h1 : socketDataHandler s data =
      { s with hasError := true, thrownError := some (data.err.getD "") } := by
    simp [socketDataHandler, hne, hnc, hc]
  refine ⟨h1, ?_, ?_, ?_, ?_⟩
  · rw [h1]
    cases hd : data.err with
    | none => rw [hd] at herr; simp [jsTruthyStr] at herr
    | some t => simp
  · rw [h1]
  · intro d
    rw [h1]
    simp [socketDataHandler]
  · rw [h1]
    simp [subscribeNotification]

/-- C3 witness: a removal-shaped event carrying `err = "boom"` on a live
subject with snapshot `[a1]` records the error with the snapshot intact, a
later insert event leaves the errored state unchanged, and a new subscriber
receives the error. -/
theorem c3_witness :
    socketDataHandler
        { value := [Entity.mk "a" 1], hasError := false, thrownError := none, closed := false }
        { old_val := some (Entity.mk "a" 1), new_val := none, err := some "boom" } =
      { value := [Entity.mk "a" 1], hasError := true, thrownError := some "boom", closed := false } ∧
    socketDataHandler
        (socketDataHandler
          { value := [Entity.mk "a" 1], hasError := false, thrownError := none, closed := false }
          { old_val := some (Entity.mk "a" 1), new_val := none, err := some "boom" })
        (toData (.inserted (Entity.mk "b" 2))) =
      socketDataHandler
        { value := [Entity.mk "a" 1], hasError := false, thrownError := none, closed := false }
        { old_val := some (Entity.mk "a" 1), new_val := none, err := some "boom" } ∧
    subscribeNotification
        (socketDataHandler
          { value := [Entity.mk "a" 1], hasError := false, thrownError := none, closed := false }
          { old_val := some (Entity.mk "a" 1), new_val := none, err := some "boom" }) =
      .errValue (some "boom") :=
  ⟨(c3_err_terminal _ _ rfl rfl (by decide) (by decide)).1,
    (c3_err_terminal _ _ rfl rfl (by decide) (by decide)).2.2.2.1
      (toData (.inserted (Entity.mk "b" 2))),
    (c3_err_terminal _ _ rfl rfl (by decide) (by decide)).2.2.2.2⟩

/-- C10 counterexample: the event `{new_val: a1, err: ""}` has its `err`
field present together with a present `new_val`, yet — `!!''` being false in
JavaScript — it is classified as an insert, not as an error, and the
snapshot changes from `[]` to `[a1]`. -/
theorem c10_counterexample :
    classify [] { old_val := none, new_val := some (Entity.mk "a" 1), err := some "" } =
      .published [Entity.mk "a" 1] ∧
    applySnapshot [] { old_val := none, new_val := some (Entity.mk "a" 1), err := some "" } ≠
      [] := by
  decide

/-- C10 amended: for every snapshot and every change event whose `err` field
is present AND NON-EMPTY together with at least one of `old_val`/`new_val`
present, the event is classified as an error rather than as an insert,
update, or delete: the error branch fires and the snapshot is unchanged
(error classification takes priority over the value-based cases, and with a
value present the Cleared condition cannot fire). -/
theorem c10_err_over_values (db : List Entity) (data : ChangeData)
    (hval : data.old_val.isSome = true ∨ data.new_val.isSome = true)
    (herr : jsTruthyStr data.err = true) :
    classify db data = .errored (data.err.getD "") ∧
      applySnapshot db data = db := by
  have hcl : ¬(data.old_val = none ∧ data.new_val = none ∧ 0 < db.length) := by
    rintro ⟨h1, h2, -⟩
    rcases hval with h | h
    · rw [h1] at h; simp at h
    · rw [h2] at h; simp at h
  have hc := classify_err db data herr hcl
  exact ⟨hc, by simp [applySnapshot, hc]⟩

/-- C10 witness: an update-shaped event carrying `err = "oops"` on snapshot
`[a1]` is classified as an error and leaves the snapshot unchanged. -/
theorem c10_witness :
    ((some (Entity.mk "a" 1) : Option Entity).isSome = true ∨
      (some (Entity.mk "a" 2) : Option Entity).isSome = true) ∧
    (classify [Entity.mk "a" 1]
        { old_val := some (Entity.mk "a" 1), new_val := some (Entity.mk "a" 2), err := some "oops" } =
      .errored "oops" ∧
    applySnapshot [Entity.mk "a" 1]
        { old_val := some (Entity.mk "a" 1), new_val := some (Entity.mk "a" 2), err := some "oops" } =
      [Entity.mk "a" 1]) :=
  ⟨Or.inl rfl,
    c10_err_over_values [Entity.mk "a" 1]
      { old_val := some (Entity.mk "a" 1), new_val := some (Entity.mk "a" 2), err := some "oops" }
      (Or.inl rfl) (by decide)⟩

/-- C4: every mutation command (`push`, `remove`, `update`) on a collection
in the Closed state (unsubscribed, no recorded error) fails immediately with
the channel-closed error and performs no network call, and on a collection
in the terminal error state fails immediately by re-raising the recorded
error. -/
theorem c4_mutation_fail_fast (c : Collection) (obj : Entity) (arg : RemoveArg)
    (q : Option IRethinkDBQuery) :
    (c.state.hasError = false → c.state.closed = true →
      push c obj = .thrown (.errorMsg closedMsg) ∧
      remove c arg = .thrown (.errorMsg closedMsg) ∧
      update c obj q = .thrown (.errorMsg closedMsg)) ∧
    (c.state.hasError = true →
      push c obj = .thrown (.recorded c.state.thrownError) ∧
      remove c arg = .thrown (.recorded c.state.thrownError) ∧
      update c obj q = .thrown (.recorded c.state.thrownError)) := by
  constructor
  · intro h1 h2
    exact ⟨by simp [push, h1, h2], by simp [remove, h1, h2], by simp [update, h1, h2]⟩
  · intro h1
    exact ⟨by simp [push, h1], by simp [remove, h1], by simp [update, h1]⟩

/-- C4 witness: on the closed collection `push` throws the channel-closed
error, and on the errored collection `push` re-raises `"boom"`; no request
is issued in either case. -/
theorem c4_witness :
    push closedCollection (Entity.mk "a" 1) = .thrown (.errorMsg closedMsg) ∧
    push erroredCollection (Entity.mk "a" 1) = .thrown (.recorded (some "boom")) :=
  ⟨((c4_mutation_fail_fast closedCollection (Entity.mk "a" 1) (.str "x") none).1 rfl rfl).1,
    ((c4_mutation_fail_fast erroredCollection (Entity.mk "a" 1) (.str "x") none).2 rfl).1⟩

/-- C6: on a live collection, `remove` called with a bare string selector
`s` issues a delete request whose body carries `query = {index: "id",
value: s}`, and `remove` called with an explicit `{indexName, indexValue}`
pair issues a delete request whose body carries
`query = {index: indexName, value: indexValue}`. -/
theorem c6_remove_query_mapping (c : Collection) (s indexName indexValue : String)
    (hne : c.state.hasError = false) (hnc : c.state.closed = false) :
    remove c (.str s) =
      .request (API_URL c.rethinkdbConfig ++ "/api/delete")
        { db := c.rethinkdbConfig.database
          table := c.table
          api_key := c.rethinkdbConfig.api_key
          query := { index := "id", value := s } } ∧
    remove c (.idx indexName indexValue) =
      .request (API_URL c.rethinkdbConfig ++ "/api/delete")
        { db := c.rethinkdbConfig.database
          table := c.table
          api_key := c.rethinkdbConfig.api_key
          query := { index := indexName, value := indexValue } } := by
  constructor <;> simp [remove, hne, hnc]

/-- C6 witness: on the sample collection, `remove "x"` maps to
`query = {index: "id", value: "x"}` and
`remove {indexName: "email", indexValue: "a@b.com"}` maps to
`query = {index: "email", value: "a@b.com"}`. -/
theorem c6_witness :
    remove sampleCollection (.str "x") =
      .request (API_URL sampleCollection.rethinkdbConfig ++ "/api/delete")
        { db := sampleCollection.rethinkdbConfig.database
          table := sampleCollection.table
          api_key := sampleCollection.rethinkdbConfig.api_key
          query := { index := "id", value := "x" } } ∧
    remove sampleCollection (.idx "email" "a@b.com") =
      .request (API_URL sampleCollection.rethinkdbConfig ++ "/api/delete")
        { db := sampleCollection.rethinkdbConfig.database
          table := sampleCollection.table
          api_key := sampleCollection.rethinkdbConfig.api_key
          query := { index := "email", value := "a@b.com" } } :=
  c6_remove_query_mapping sampleCollection "x" "email" "a@b.com" rfl rfl

/-- C2: for every sequence of valid change events applied in order starting
from the empty snapshot, the resulting snapshot contains no two entities
with the same identifier, and it holds exactly one entity per distinct
identifier present via the net effect of inserts/updates minus removals
(an identifier is in the snapshot iff it is in the net effect). -/
theorem c2_no_duplicate_ids (es : List ChangeEvent) (hv : validSeq [] es = true) :
    ((applyEvents [] es).map Entity.id).Nodup ∧
    (∀ i, i ∈ (applyEvents [] es).map Entity.id ↔ i ∈ netEffect es) := by
  simpa [netEffect] using ids_invariant es [] [] List.nodup_nil (by simp) hv

/-- C2 witness: the valid sequence insert `a1`, insert `b2`, update
`a1 → a3`, remove `b2` yields a snapshot with pairwise-distinct identifiers
whose membership matches the net effect (identifier `a` present). -/
theorem c2_witness :
    validSeq []
        [ChangeEvent.inserted (Entity.mk "a" 1), ChangeEvent.inserted (Entity.mk "b" 2),
          ChangeEvent.updated (Entity.mk "a" 1) (Entity.mk "a" 3),
          ChangeEvent.removed (Entity.mk "b" 2)] = true ∧
    ((applyEvents []
        [ChangeEvent.inserted (Entity.mk "a" 1), ChangeEvent.inserted (Entity.mk "b" 2),
          ChangeEvent.updated (Entity.mk "a" 1) (Entity.mk "a" 3),
          ChangeEvent.removed (Entity.mk "b" 2)]).map Entity.id).Nodup ∧
    ("a" ∈ (applyEvents []
        [ChangeEvent.inserted (Entity.mk "a" 1), ChangeEvent.inserted (Entity.mk "b" 2),
          ChangeEvent.updated (Entity.mk "a" 1) (Entity.mk "a" 3),
          ChangeEvent.removed (Entity.mk "b" 2)]).map Entity.id ↔
      "a" ∈ netEffect
        [ChangeEvent.inserted (Entity.mk "a" 1), ChangeEvent.inserted (Entity.mk "b" 2),
          ChangeEvent.updated (Entity.mk "a" 1) (Entity.mk "a" 3),
          ChangeEvent.removed (Entity.mk "b" 2)]) :=
  ⟨by decide,
    (c2_no_duplicate_ids
      [ChangeEvent.inserted (Entity.mk "a" 1), ChangeEvent.inserted (Entity.mk "b" 2),
        ChangeEvent.updated (Entity.mk "a" 1) (Entity.mk "a" 3),
        ChangeEvent.removed (Entity.mk "b" 2)] (by decide)).1,
    (c2_no_duplicate_ids
      [ChangeEvent.inserted (Entity.mk "a" 1), ChangeEvent.inserted (Entity.mk "b" 2),
        ChangeEvent.updated (Entity.mk "a" 1) (Entity.mk "a" 3),
        ChangeEvent.removed (Entity.mk "b" 2)] (by decide)).2 "a"⟩

end AngularRethinkDB
